import Mathlib

/-!
Verification of the nmea-parser core against its design notes.

The development shallowly embeds the sentence-framing / dispatch layer of
`src/lib.rs` (`decode_sentence`) and the AIS type 19 handler of
`src/ais/vdm_t19.rs` (`handle`).  Strings are modelled as `List Char`
(each character one byte; the embedded sentences are ASCII), machine
integers as `Nat`/`Int` with explicit wrap-around where a Rust cast can
matter, and `f64` scaling by the exact constants `0.1` and `1/600000`
is modelled as exact division over `Rat`.  Rust code paths that index a
string out of bounds are modelled by the distinguished outcome
`Outcome.panicked`.

Helper functions living in `util.rs` / `types.rs` (the bit extractor,
the six-bit payload unpacker, the fragment store) are not part of the
sources; they are modelled from the design notes and marked as such.
-/

set_option autoImplicit false
set_option maxRecDepth 40000

namespace NmeaParser

/-- Value of a bit string, most significant bit first. -/
def bitsVal : List Bool → Nat
  | [] => 0
  | b :: rest => (if b then 1 else 0) * 2 ^ rest.length + bitsVal rest

/-- Modelled from the spec: `pick_u64` of `util.rs` (missing from `src/`).
Reads `width` bits starting at `offset`, MSB-first, zero-extended; returns `0`
whenever `offset + width` exceeds the bit vector's length (§4.1). -/
def pick_u64 (bv : List Bool) (offset width : Nat) : Nat :=
  if offset + width ≤ bv.length then bitsVal ((bv.drop offset).take width) else 0

/-- Modelled from the spec: `pick_i64` of `util.rs` (missing from `src/`).
Reads as `pick_u64`, then sign-extends from bit `width - 1` (§4.1). -/
def pick_i64 (bv : List Bool) (offset width : Nat) : Int :=
  let u := pick_u64 bv offset width
  if u < 2 ^ (width - 1) then (u : Int) else (u : Int) - 2 ^ width

/-- Rust's `as i32` cast on an `i64` value: wrap into `[-2^31, 2^31)`. -/
def wrap32 (x : Int) : Int := (x + 2 ^ 31) % 2 ^ 32 - 2 ^ 31

/-- The `width`-bit binary expansion of `n`, MSB first (low bits of `n`). -/
def natToBits : Nat → Nat → List Bool
  | 0, _ => []
  | w + 1, n => natToBits w (n / 2) ++ [decide (n % 2 = 1)]

/-- Error kinds of the decoder; each constructor tags one distinct
`Err(format!(...))` site of `decode_sentence` in `lib.rs`. -/
inductive DecodeError where
  | checksumMismatch
  | invalidFormat
  | fieldParseFailed (fieldIndex : Nat)
  | payloadDecodeFailed
  | unimplementedSentence (sentenceType : List Char)
  | unsupportedSentence (sentenceType : List Char)
  | unsupportedMessageType (messageType : Nat)
  | unrecognizedMessageType (messageType : Nat)
deriving DecidableEq

/-- Modelled from the spec: the armored-character mapping of
`parse_payload` in `util.rs` (missing from `src/`), §4.2: `v = c - 48`,
then `v = v - 8` when `v > 40`; characters outside the mapped range fail. -/
def armoredVal (c : Char) : Option Nat :=
  let n := c.toNat
  if n < 48 then none
  else
    let v0 := n - 48
    let v := if v0 > 40 then v0 - 8 else v0
    if v ≤ 63 then some v else none

/-- Modelled from the spec: `parse_payload` of `util.rs` (missing from
`src/`), §4.2.  Each character contributes its six bits, MSB-first. -/
def parse_payload : List Char → Except DecodeError (List Bool)
  | [] => .ok []
  | c :: rest =>
    match armoredVal c with
    | none => .error .payloadDecodeFailed
    | some v =>
      match parse_payload rest with
      | .ok bits => .ok (natToBits 6 v ++ bits)
      | .error e => .error e

inductive AisClass where
  | ClassA
  | ClassB
deriving DecidableEq

inductive Station where
  | BaseAisStation
  | DependentAisBaseStation
  | MobileAisStation
  | AidToNavigationAisStation
  | AisReceivingStation
  | LimitedBaseStation
  | AisTransmittingStation
  | RepeaterAisStation
  | Other
deriving DecidableEq

inductive NavigationSystem where
  | Combination
  | Gps
  | Glonass
  | Galileo
  | Beidou
  | Navic
  | Qzss
  | Other
deriving DecidableEq

inductive NavigationStatus where
  | UnderWayUsingEngine
  | AtAnchor
  | NotUnderCommand
  | RestrictedManoeuverability
  | ConstrainedByDraught
  | Moored
  | Aground
  | EngagedInFishing
  | UnderWaySailing
  | ReservedForFutureUse9
  | ReservedForFutureUse10
  | ReservedForFutureUse11
  | ReservedForFutureUse12
  | ReservedForFutureUse13
  | AisSartIsActive
  | NotDefined
deriving DecidableEq

/-- Direction tag attached to a rate-of-turn reading; only its absence is
asserted by the type 19 handler, so the constructors are a placeholder. -/
inductive RotDirection where
  | Port
  | Starboard
deriving DecidableEq

/-- Positioning-system metadata; only its absence is asserted by the
type 19 handler, so the constructors are a placeholder. -/
inductive PositioningSystemMeta where
  | Autonomous
  | Differential
  | Assisted
deriving DecidableEq

/-- A latitude/longitude pair; only its absence is asserted by the
type 19 handler. -/
structure GnssPosition where
  latitude : Rat
  longitude : Rat
deriving DecidableEq

structure VesselDynamicData where
  own_vessel : Bool
  station : Station
  ais_type : AisClass
  mmsi : Nat
  sog_knots : Option Rat
  high_position_accuracy : Bool
  longitude : Option Rat
  latitude : Option Rat
  cog : Option Rat
  heading_true : Option Rat
  timestamp_seconds : Nat
  class_b_unit_flag : Option Bool
  class_b_display : Option Bool
  class_b_dsc : Option Bool
  class_b_band_flag : Option Bool
  class_b_msg22_flag : Option Bool
  class_b_mode_flag : Option Bool
  raim_flag : Bool
  class_b_css_flag : Option Bool
  radio_status : Option Nat
  nav_status : NavigationStatus
  rot : Option Rat
  rot_direction : Option RotDirection
  positioning_system_meta : Option PositioningSystemMeta
  current_gnss_position : Option GnssPosition
  special_manoeuvre : Option Nat
deriving DecidableEq

inductive ParsedSentence where
  | VesselDynamicData (d : VesselDynamicData)
  | Incomplete
deriving DecidableEq

/-- Embedding of `handle` from `src/ais/vdm_t19.rs`: the AIS type 19
(Extended Class B Equipment Position Report) handler.  `f64` scaling is
modelled exactly over `Rat`; the Rust `as u32` / `as i32` / `as u8`
casts are kept as explicit wrap-arounds. -/
def ais_vdm_t19_handle (bv : List Bool) (station : Station) (own_vessel : Bool) :
    Except DecodeError ParsedSentence :=
  .ok (.VesselDynamicData {
    own_vessel := own_vessel
    station := station
    ais_type := .ClassB
    mmsi := pick_u64 bv 8 30 % 2 ^ 32
    sog_knots :=
      let raw := pick_u64 bv 46 10
      if raw < 1023 then some ((raw : Rat) / 10) else none
    high_position_accuracy := pick_u64 bv 56 1 != 0
    longitude :=
      let lon_raw := wrap32 (pick_i64 bv 57 28)
      if lon_raw ≠ 0x6791AC0 then some ((lon_raw : Rat) / 600000) else none
    latitude :=
      let lat_raw := wrap32 (pick_i64 bv 85 27)
      if lat_raw ≠ 0x3412140 then some ((lat_raw : Rat) / 600000) else none
    cog :=
      let cog_raw := pick_u64 bv 112 12
      if cog_raw ≠ 0xE10 then some ((cog_raw : Rat) / 10) else none
    heading_true :=
      let th_raw := pick_u64 bv 124 9
      if th_raw ≠ 511 then some ((th_raw : Rat)) else none
    timestamp_seconds := pick_u64 bv 133 6 % 2 ^ 8
    class_b_unit_flag := none
    class_b_display := none
    class_b_dsc := none
    class_b_band_flag := none
    class_b_msg22_flag := none
    class_b_mode_flag := none
    raim_flag := pick_u64 bv 305 1 != 0
    class_b_css_flag := none
    radio_status := none
    nav_status := .NotDefined
    rot := none
    rot_direction := none
    positioning_system_meta := none
    current_gnss_position := none
    special_manoeuvre := none
  })

/-- Modelled from the spec: the identity of a fragment slot built by
`make_fragment_key` in `util.rs` (missing from `src/`): sentence type,
message id, fragment count, fragment index and radio channel (§3, §4.5). -/
structure FragmentKey where
  sentenceType : List Char
  messageId : Nat
  fragmentCount : Nat
  fragmentIndex : Nat
  radioChannel : List Char
deriving DecidableEq

/-- Modelled from the spec: constructor for `FragmentKey` mirroring
`make_fragment_key` of `util.rs`. -/
def make_fragment_key (sentenceType : List Char) (messageId fragmentCount fragmentIndex : Nat)
    (radioChannel : List Char) : FragmentKey :=
  ⟨sentenceType, messageId, fragmentCount, fragmentIndex, radioChannel⟩

/-- Modelled from the spec: the reassembly store of `types.rs` (missing
from `src/`), a map from `FragmentKey` to a pending payload (§4.4),
represented as an association list without duplicate keys. -/
def NmeaStore : Type := List (FragmentKey × List Char)

instance : DecidableEq NmeaStore := by
  unfold NmeaStore
  infer_instance

def lookupStore (k : FragmentKey) : NmeaStore → Option (List Char)
  | [] => none
  | kv :: rest => if kv.1 = k then some kv.2 else lookupStore k rest

def storeErase (k : FragmentKey) (st : NmeaStore) : NmeaStore :=
  List.filter (fun kv => decide (kv.1 ≠ k)) st

/-- Modelled from the spec: `NmeaStore::push_string` — insert,
overwriting any previous entry at the key (§4.4). -/
def push_string (k : FragmentKey) (v : List Char) (st : NmeaStore) : NmeaStore :=
  (k, v) :: storeErase k st

/-- Modelled from the spec: `NmeaStore::pull_string` — atomically remove
and return the entry at the key, if any (§4.4). -/
def pull_string (k : FragmentKey) (st : NmeaStore) : Option (List Char) × NmeaStore :=
  match lookupStore k st with
  | some v => (some v, storeErase k st)
  | none => (none, st)

/-- The observable outcome of one `decode_sentence` call.  `gnssDispatch`
and `aisDispatch` stand for calls into handlers that are external to the
embedded sources (`gnss_*.rs`; `ais_vdm_t1t2t3/t5/t18/t24.rs`): they
record exactly the arguments handed over.  `panicked` marks the Rust
string-slice panics reachable in the header-shortening code. -/
inductive Outcome where
  | ok (ps : ParsedSentence)
  | err (e : DecodeError)
  | panicked
  | gnssDispatch (sentenceType : List Char) (ns : NavigationSystem) (body : List Char)
  | aisDispatch (messageType : Nat) (bv : List Bool) (station : Station) (ownVessel : Bool)
deriving DecidableEq

/-- Index of the first `','`, as `sentence.find(',')` in `lib.rs`. -/
def findComma : List Char → Option Nat
  | [] => none
  | c :: rest => if c = ',' then some 0 else (findComma rest).map (· + 1)

/-- Split at the last `'*'` (`sentence.rfind('*')` in `lib.rs`): returns
the body before it and the checksum suffix after it; when no `'*'`
occurs, the body is the whole input and the suffix is empty. -/
def splitChecksum : List Char → List Char × List Char
  | [] => ([], [])
  | c :: rest =>
    if c = '*' ∧ '*' ∉ rest then ([], rest)
    else
      let p := splitChecksum rest
      (c :: p.1, p.2)

/-- XOR-8 over the bytes of the body, skipping its first character
(the `for c in sentence.chars().skip(1)` loop of `lib.rs`; `c as u8`
truncates the code point to its low eight bits). -/
def xorChecksum (body : List Char) : Nat :=
  (body.drop 1).foldl (fun a c => Nat.xor a (c.toNat % 256)) 0

def hexDigit (n : Nat) : Char :=
  if n < 10 then Char.ofNat (48 + n) else Char.ofNat (55 + n)

/-- The two uppercase hex digits of a byte (`format!` with `02X` in
`lib.rs`). -/
def toHex2 (n : Nat) : List Char :=
  [hexDigit (n / 16 % 16), hexDigit (n % 16)]

/-- Talker prefix to navigation system (`lib.rs` lines 85-100). -/
def navFromTalker : Char → Char → NavigationSystem
  | 'G', 'N' => .Combination
  | 'G', 'P' => .Gps
  | 'G', 'L' => .Glonass
  | 'G', 'A' => .Galileo
  | 'B', 'D' => .Beidou
  | 'G', 'I' => .Navic
  | 'Q', 'Z' => .Qzss
  | _, _ => .Other

/-- Talker prefix to AIS station (`lib.rs` lines 108-125). -/
def stationFromTalker : Char → Char → Station
  | 'A', 'B' => .BaseAisStation
  | 'A', 'D' => .DependentAisBaseStation
  | 'A', 'I' => .MobileAisStation
  | 'A', 'N' => .AidToNavigationAisStation
  | 'A', 'R' => .AisReceivingStation
  | 'A', 'S' => .LimitedBaseStation
  | 'A', 'T' => .AisTransmittingStation
  | 'A', 'X' => .RepeaterAisStation
  | _, _ => .Other

def digitVal (c : Char) : Option Nat :=
  if '0' ≤ c ∧ c ≤ '9' then some (c.toNat - 48) else none

def digitsValAux : List Char → Nat → Option Nat
  | [], acc => some acc
  | c :: rest, acc =>
    match digitVal c with
    | some d => digitsValAux rest (10 * acc + d)
    | none => none

/-- Rust's `str::parse` for unsigned integers: an optional leading `'+'`
followed by a nonempty digit string; `bound` is the type's maximum. -/
def parseBounded (bound : Nat) (s : List Char) : Option Nat :=
  let core : List Char → Option Nat := fun l =>
    match l with
    | [] => none
    | _ => digitsValAux l 0
  let n? :=
    match s with
    | '+' :: rest => core rest
    | _ => core s
  n?.bind (fun n => if n ≤ bound then some n else none)

/-- Split a body at every `','` (Rust `str::split(',')`), keeping empty
fields and the field before the first comma. -/
def splitComma : List Char → List (List Char)
  | [] => [[]]
  | c :: rest =>
    if c = ',' then [] :: splitComma rest
    else
      match splitComma rest with
      | [] => [[c]]
      | f :: fs => (c :: f) :: fs

/-- AIS message-type dispatch on a decoded bit vector
(`lib.rs` lines 287-411).  Only the type 19 handler is part of the
embedded sources; types 1/2/3, 5, 18 and 24 surface as `aisDispatch`. -/
def dispatchAis (bv : List Bool) (station : Station) (ownVessel : Bool) : Outcome :=
  let t := pick_u64 bv 0 6
  if t = 1 ∨ t = 2 ∨ t = 3 then .aisDispatch t bv station ownVessel
  else if t = 4 then .err (.unsupportedMessageType t)
  else if t = 5 then .aisDispatch t bv station ownVessel
  else if 6 ≤ t ∧ t ≤ 17 then .err (.unsupportedMessageType t)
  else if t = 18 then .aisDispatch t bv station ownVessel
  else if t = 19 then
    match ais_vdm_t19_handle bv station ownVessel with
    | .ok m => .ok m
    | .error e => .err e
  else if 20 ≤ t ∧ t ≤ 23 then .err (.unsupportedMessageType t)
  else if t = 24 then .aisDispatch t bv station ownVessel
  else .err (.unrecognizedMessageType t)

/-- `bv = parse_payload(..).ok()` followed by the dispatch-or-Incomplete
step of `lib.rs` lines 287-414. -/
def decodeBvOpt (r : Except DecodeError (List Bool)) (station : Station) (ownVessel : Bool) :
    Outcome :=
  match r with
  | .ok bv => dispatchAis bv station ownVessel
  | .error _ => .ok .Incomplete

/-- Fragment reassembly (`lib.rs` lines 251-286 plus the final
dispatch-or-Incomplete step): single fragments decode at once; for a
two-fragment transmission the matching half is pulled from the store or
the current payload is parked there. -/
def aisReassemble (sentenceType : List Char) (station : Station) (ownVessel : Bool)
    (fragmentCount fragmentNumber : Nat) (messageId : Option Nat)
    (radioChannel payload : List Char) (store : NmeaStore) : Outcome × NmeaStore :=
  if fragmentCount = 1 then
    (decodeBvOpt (parse_payload payload) station ownVessel, store)
  else if fragmentCount = 2 then
    match messageId with
    | some m =>
      let k1 := make_fragment_key sentenceType m fragmentCount 1 radioChannel
      let k2 := make_fragment_key sentenceType m fragmentCount 2 radioChannel
      if fragmentNumber = 1 then
        match pull_string k2 store with
        | (some p, store2) => (decodeBvOpt (parse_payload (payload ++ p)) station ownVessel, store2)
        | (none, _) => (.ok .Incomplete, push_string k1 payload store)
      else if fragmentNumber = 2 then
        match pull_string k1 store with
        | (some p, store2) => (decodeBvOpt (parse_payload (p ++ payload)) station ownVessel, store2)
        | (none, _) => (.ok .Incomplete, push_string k2 payload store)
      else (.ok .Incomplete, store)
    | none => (.ok .Incomplete, store)
  else (.ok .Incomplete, store)

/-- Field extraction for a `!VDM`/`!VDO` body (the `for s in
sentence.split(",")` loop of `lib.rs` lines 212-249): fields 3-5 never
fail, missing fields keep their defaults. -/
def aisFields (sentenceType : List Char) (station : Station) (ownVessel : Bool)
    (fragmentCount fragmentNumber : Nat) (fields : List (List Char)) (store : NmeaStore) :
    Outcome × NmeaStore :=
  let messageId := (fields.get? 3).bind (parseBounded (2 ^ 64 - 1))
  let radioChannel := (fields.get? 4).getD []
  let payload := (fields.get? 5).getD []
  aisReassemble sentenceType station ownVessel fragmentCount fragmentNumber messageId
    radioChannel payload store

/-- The `!VDM`/`!VDO` branch of `decode_sentence`: parse fragment count
and number (field indices 1 and 2, failing like the Rust `parse::<u8>`),
then reassemble. -/
def aisStage (ownVessel : Bool) (sentenceType : List Char) (station : Station)
    (body : List Char) (store : NmeaStore) : Outcome × NmeaStore :=
  let fields := splitComma body
  match fields.get? 1 with
  | some s1 =>
    match parseBounded 255 s1 with
    | none => (.err (.fieldParseFailed 1), store)
    | some fragmentCount =>
      match fields.get? 2 with
      | some s2 =>
        match parseBounded 255 s2 with
        | none => (.err (.fieldParseFailed 2), store)
        | some fragmentNumber =>
          aisFields sentenceType station ownVessel fragmentCount fragmentNumber fields store
      | none => aisFields sentenceType station ownVessel fragmentCount 0 fields store
  | none => aisFields sentenceType station ownVessel 0 0 fields store

def sGGA : List Char := ("$GGA").data
def sRMC : List Char := ("$RMC").data
def sGSA : List Char := ("$GSA").data
def sGSV : List Char := ("$GSV").data
def sVTG : List Char := ("$VTG").data
def sGLL : List Char := ("$GLL").data
def sALM : List Char := ("$ALM").data
def sHDT : List Char := ("$HDT").data
def sTRF : List Char := ("$TRF").data
def sSTN : List Char := ("$STN").data
def sVBW : List Char := ("$VBW").data
def sXTC : List Char := ("$XTC").data
def sXTE : List Char := ("$XTE").data
def sZDA : List Char := ("$ZDA").data
def sBOD : List Char := ("$BOD").data
def sRMA : List Char := ("$RMA").data
def sVDM : List Char := ("!VDM").data
def sVDO : List Char := ("!VDO").data

/-- The `match sentence_type.as_str()` of `lib.rs` lines 134-419.  GNSS
sentences are handed to their external handlers (`gnssDispatch`); the
store updates those handlers may perform are outside the embedded
sources and outside every claim. -/
def sentenceMatch (st2 : List Char) (nav : Option NavigationSystem) (stn : Option Station)
    (body : List Char) (store : NmeaStore) : Outcome × NmeaStore :=
  if st2 = sGGA ∨ st2 = sRMC ∨ st2 = sGSA ∨ st2 = sGSV ∨ st2 = sVTG ∨ st2 = sGLL then
    (.gnssDispatch st2 (nav.getD .Other) body, store)
  else if st2 = sALM ∨ st2 = sHDT ∨ st2 = sTRF ∨ st2 = sSTN ∨ st2 = sVBW ∨ st2 = sXTC ∨
      st2 = sXTE ∨ st2 = sZDA ∨ st2 = sBOD ∨ st2 = sRMA then
    (.err (.unimplementedSentence st2), store)
  else if st2 = sVDM ∨ st2 = sVDO then
    aisStage (st2 = sVDO) st2 (stn.getD .Other) body store
  else (.err (.unsupportedSentence st2), store)

/-- Talker recognition and sentence-type shortening (`lib.rs` lines
84-131).  The Rust code slices `&sentence_type[0..1]`, `[1..3]` and
`[3..6]` unconditionally, so an empty header, a header of fewer than
three characters after `$`/`!`, or a `$`/`!` header of four or five
characters panics; those paths yield `Outcome.panicked`. -/
def headerStage (st0 body : List Char) (store : NmeaStore) : Outcome × NmeaStore :=
  match st0 with
  | [] => (.panicked, store)
  | c0 :: rest =>
    if c0 = '$' then
      match rest with
      | a :: b :: _ =>
        if st0.length ≤ 6 then
          if st0.length = 6 then
            sentenceMatch ('$' :: st0.drop 3) (some (navFromTalker a b)) none body store
          else (.panicked, store)
        else sentenceMatch st0 (some (navFromTalker a b)) none body store
      | _ => (.panicked, store)
    else if c0 = '!' then
      match rest with
      | a :: b :: _ =>
        if st0.length ≤ 6 then
          if st0.length = 6 then
            sentenceMatch ('!' :: st0.drop 3) none (some (stationFromTalker a b)) body store
          else (.panicked, store)
        else sentenceMatch st0 none (some (stationFromTalker a b)) body store
      | _ => (.panicked, store)
    else sentenceMatch st0 none none body store

/-- Everything `decode_sentence` does after the checksum stage: find the
first comma (else `InvalidFormat`), analyse the header, dispatch. -/
def processBody (body : List Char) (store : NmeaStore) : Outcome × NmeaStore :=
  match findComma body with
  | none => (.err .invalidFormat, store)
  | some i => headerStage (body.take i) body store

/-- Embedding of `decode_sentence` from `src/lib.rs`: split off the
checksum suffix at the last `'*'`, verify it (an empty suffix is
accepted), then process the body. -/
def decodeSentence (s : List Char) (store : NmeaStore) : Outcome × NmeaStore :=
  let p := splitChecksum s
  let calced := toHex2 (xorChecksum p.1)
  if p.2 ≠ [] ∧ p.2 ≠ calced then (.err .checksumMismatch, store)
  else processBody p.1 store

theorem bitsVal_lt (l : List Bool) : bitsVal l < 2 ^ l.length := by
  induction l with
  | nil => simp [bitsVal]
  | cons b rest ih =>
    simp only [bitsVal, List.length_cons, pow_succ]
    rcases b with _ | _ <;> simp <;> omega

theorem pick_u64_lt (bv : List Bool) (o w : Nat) : pick_u64 bv o w < 2 ^ w := by
  unfold pick_u64
  split
  · calc bitsVal ((bv.drop o).take w) < 2 ^ ((bv.drop o).take w).length := bitsVal_lt _
      _ ≤ 2 ^ w := Nat.pow_le_pow_right (by omega) (by simp)
  · exact Nat.pos_pow_of_pos w (by omega)

theorem pick_u64_zero_of_short (bv : List Bool) (o w : Nat) (h : bv.length < o + w) :
    pick_u64 bv o w = 0 := by
  unfold pick_u64
  rw [if_neg (by omega)]

theorem pick_i64_bounds (bv : List Bool) (o k : Nat) :
    -(2 ^ k : Int) ≤ pick_i64 bv o (k + 1) ∧ pick_i64 bv o (k + 1) < 2 ^ k := by
  have hu := pick_u64_lt bv o (k + 1)
  have hu' : (pick_u64 bv o (k + 1) : Int) < 2 ^ (k + 1) := by exact_mod_cast hu
  have hpos : (0 : Int) < 2 ^ k := by positivity
  have hnn : (0 : Int) ≤ (pick_u64 bv o (k + 1) : Int) := Int.ofNat_nonneg _
  unfold pick_i64
  simp only [Nat.add_sub_cancel]
  split
  case isTrue h =>
    have h' : (pick_u64 bv o (k + 1) : Int) < 2 ^ k := by exact_mod_cast h
    constructor <;> linarith
  case isFalse h =>
    have h' : ((2 : Nat) ^ k : Int) ≤ (pick_u64 bv o (k + 1) : Int) := by
      exact_mod_cast Nat.le_of_not_lt h
    have hc : ((2 : Nat) ^ k : Int) = 2 ^ k := by push_cast; ring
    rw [hc] at h'
    have hs : (2 : Int) ^ (k + 1) = 2 ^ k * 2 := pow_succ 2 k
    constructor <;> simp only [hs] at hu' ⊢ <;> linarith

theorem wrap32_eq (x : Int) (h1 : -(2 ^ 31) ≤ x) (h2 : x < 2 ^ 31) : wrap32 x = x := by
  unfold wrap32
  have he : (x + 2 ^ 31) % 2 ^ 32 = x + 2 ^ 31 :=
    Int.emod_eq_of_lt (by linarith) (by norm_num; linarith)
  rw [he]
  ring

theorem wrap32_pick_i64_lon (bv : List Bool) : wrap32 (pick_i64 bv 57 28) = pick_i64 bv 57 28 := by
  have h := pick_i64_bounds bv 57 27
  exact wrap32_eq _ (by norm_num at h ⊢; linarith [h.1]) (by norm_num at h ⊢; linarith [h.2])

theorem wrap32_pick_i64_lat (bv : List Bool) : wrap32 (pick_i64 bv 85 27) = pick_i64 bv 85 27 := by
  have h := pick_i64_bounds bv 85 26
  exact wrap32_eq _ (by norm_num at h ⊢; linarith [h.1]) (by norm_num at h ⊢; linarith [h.2])

/-- C1: the type 19 handler decodes MMSI from the unsigned field at
bits [8,38); SOG from [46,56), absent exactly at sentinel 1023, else
raw × 0.1; longitude from the signed field at [57,85), absent exactly at
sentinel 0x6791AC0, else raw / 600000; latitude from the signed field at
[85,112), absent exactly at sentinel 0x3412140, else raw / 600000; COG
from [112,124), absent exactly at sentinel 0xE10, else raw × 0.1 with no
range clamping; true heading from [124,133), absent exactly at sentinel
511; timestamp from [133,139); and the RAIM flag from bit 305. -/
theorem t19_field_decoding (bv : List Bool) (s : Station) (o : Bool) :
    ∃ d, ais_vdm_t19_handle bv s o = .ok (.VesselDynamicData d) ∧
      d.mmsi = pick_u64 bv 8 30 ∧
      d.sog_knots =
        (if pick_u64 bv 46 10 = 1023 then none else some ((pick_u64 bv 46 10 : Rat) / 10)) ∧
      d.longitude =
        (if pick_i64 bv 57 28 = 0x6791AC0 then none
         else some ((pick_i64 bv 57 28 : Rat) / 600000)) ∧
      d.latitude =
        (if pick_i64 bv 85 27 = 0x3412140 then none
         else some ((pick_i64 bv 85 27 : Rat) / 600000)) ∧
      d.cog =
        (if pick_u64 bv 112 12 = 0xE10 then none
         else some ((pick_u64 bv 112 12 : Rat) / 10)) ∧
      d.heading_true =
        (if pick_u64 bv 124 9 = 511 then none else some ((pick_u64 bv 124 9 : Rat))) ∧
      d.timestamp_seconds = pick_u64 bv 133 6 ∧
      (d.raim_flag = true ↔ pick_u64 bv 305 1 = 1) := by
  refine ⟨_, rfl, ?_, ?_, ?_, ?_, ?_, ?_, ?_, ?_⟩
  · show pick_u64 bv 8 30 % 2 ^ 32 = pick_u64 bv 8 30
    have h := pick_u64_lt bv 8 30
    exact Nat.mod_eq_of_lt (by norm_num at h ⊢; omega)
  · show (if pick_u64 bv 46 10 < 1023 then some ((pick_u64 bv 46 10 : Rat) / 10) else none) = _
    have h : pick_u64 bv 46 10 < 1024 := by have := pick_u64_lt bv 46 10; norm_num at this; omega
    by_cases he : pick_u64 bv 46 10 = 1023
    · simp [he]
    · have hlt : pick_u64 bv 46 10 < 1023 := by omega
      simp [he, hlt]
  · show (if wrap32 (pick_i64 bv 57 28) ≠ 0x6791AC0 then
        some ((wrap32 (pick_i64 bv 57 28) : Rat) / 600000) else none) = _
    rw [wrap32_pick_i64_lon]
    by_cases he : pick_i64 bv 57 28 = 0x6791AC0 <;> simp [he]
  · show (if wrap32 (pick_i64 bv 85 27) ≠ 0x3412140 then
        some ((wrap32 (pick_i64 bv 85 27) : Rat) / 600000) else none) = _
    rw [wrap32_pick_i64_lat]
    by_cases he : pick_i64 bv 85 27 = 0x3412140 <;> simp [he]
  · show (if pick_u64 bv 112 12 ≠ 0xE10 then some ((pick_u64 bv 112 12 : Rat) / 10) else none) = _
    by_cases he : pick_u64 bv 112 12 = 0xE10 <;> simp [he]
  · show (if pick_u64 bv 124 9 ≠ 511 then some ((pick_u64 bv 124 9 : Rat)) else none) = _
    by_cases he : pick_u64 bv 124 9 = 511 <;> simp [he]
  · show pick_u64 bv 133 6 % 2 ^ 8 = pick_u64 bv 133 6
    have h := pick_u64_lt bv 133 6
    exact Nat.mod_eq_of_lt (by norm_num at h ⊢; omega)
  · show (pick_u64 bv 305 1 != 0) = true ↔ pick_u64 bv 305 1 = 1
    have h : pick_u64 bv 305 1 < 2 := by have := pick_u64_lt bv 305 1; norm_num at this; omega
    have h01 : pick_u64 bv 305 1 = 0 ∨ pick_u64 bv 305 1 = 1 := by omega
    rcases h01 with h0 | h0 <;> simp [h0]

/-- C8: for every bit vector, the type 19 record has AIS class B,
navigation status NotDefined, no rate of turn, and all Class-B
capability subfields and the radio status absent. -/
theorem t19_classb_constants (bv : List Bool) (s : Station) (o : Bool) :
    ∃ d, ais_vdm_t19_handle bv s o = .ok (.VesselDynamicData d) ∧
      d.ais_type = .ClassB ∧
      d.nav_status = .NotDefined ∧
      d.rot = none ∧
      d.rot_direction = none ∧
      d.class_b_unit_flag = none ∧
      d.class_b_display = none ∧
      d.class_b_dsc = none ∧
      d.class_b_band_flag = none ∧
      d.class_b_msg22_flag = none ∧
      d.class_b_mode_flag = none ∧
      d.class_b_css_flag = none ∧
      d.radio_status = none :=
  ⟨_, rfl, rfl, rfl, rfl, rfl, rfl, rfl, rfl, rfl, rfl, rfl, rfl, rfl⟩

/-- C9: the type 19 handler has no error branch: for every bit vector,
station and own-vessel flag (including bit vectors shorter than the 312
bits the message occupies) it returns Ok with a VesselDynamicData
record, and every field read that runs past the end of the bit vector
decodes as zero and flows into the sentinel checks. -/
theorem t19_total (bv : List Bool) (s : Station) (o : Bool) :
    (∃ d, ais_vdm_t19_handle bv s o = .ok (.VesselDynamicData d)) ∧
      (∀ off w, bv.length < off + w → pick_u64 bv off w = 0) :=
  ⟨⟨_, rfl⟩, fun off w h => pick_u64_zero_of_short bv off w h⟩

/-- The latitude field of the record the type 19 handler produces. -/
def t19_latitude (bv : List Bool) : Option Rat :=
  match ais_vdm_t19_handle bv .Other false with
  | .ok (.VesselDynamicData d) => d.latitude
  | _ => none

/-- A 112-bit vector whose raw latitude field [85,112) holds 60000000
(within 27-bit signed range, not the sentinel). -/
def latOutOfRangeBv : List Bool := List.replicate 85 false ++ natToBits 27 60000000

/-- C4 counterexample: the handler decodes the raw latitude 60000000 to
the present value 100 degrees, outside [-90, 90] — the claimed range
invariant fails on this bit vector. -/
theorem t19_latitude_out_of_range :
    t19_latitude latOutOfRangeBv = some 100 ∧ ¬((100 : Rat) ≤ 90) := by
  have hraw : pick_i64 latOutOfRangeBv 85 27 = 60000000 := by decide
  obtain ⟨d, hd, _, _, _, hlat, _⟩ := t19_field_decoding latOutOfRangeBv .Other false
  constructor
  · unfold t19_latitude
    rw [hd]
    show d.latitude = some 100
    rw [hlat, hraw]
    norm_num
  · norm_num

/-- C4 amended: whenever the raw latitude (signed field [85,112)) equals
its sentinel 0x3412140 the decoded latitude is absent, and likewise for
the raw longitude (signed field [57,85)) and 0x6791AC0 — with no side
condition; and whenever the raw latitude lies in [-54000000, 54000000]
every present decoded latitude lies in [-90, 90], and whenever the raw
longitude lies in [-108000000, 108000000] every present decoded
longitude lies in [-180, 180].  (The code performs no clamping, so raw
values outside those bands — still within the 27/28-bit field range —
decode to out-of-range coordinates.) -/
theorem t19_position_range (bv : List Bool) (s : Station) (o : Bool) :
    ∃ d, ais_vdm_t19_handle bv s o = .ok (.VesselDynamicData d) ∧
      (pick_i64 bv 85 27 = 0x3412140 → d.latitude = none) ∧
      (pick_i64 bv 57 28 = 0x6791AC0 → d.longitude = none) ∧
      (-54000000 ≤ pick_i64 bv 85 27 → pick_i64 bv 85 27 ≤ 54000000 →
        ∀ q, d.latitude = some q → -90 ≤ q ∧ q ≤ 90) ∧
      (-108000000 ≤ pick_i64 bv 57 28 → pick_i64 bv 57 28 ≤ 108000000 →
        ∀ q, d.longitude = some q → -180 ≤ q ∧ q ≤ 180) := by
  obtain ⟨d, hd, _, _, hlon, hlat, _⟩ := t19_field_decoding bv s o
  refine ⟨d, hd, ?_, ?_, ?_, ?_⟩
  · intro hs
    rw [hlat, if_pos hs]
  · intro hs
    rw [hlon, if_pos hs]
  · intro hlat1 hlat2 q hq
    rw [hlat] at hq
    by_cases hs : pick_i64 bv 85 27 = 0x3412140
    · rw [if_pos hs] at hq
      exact absurd hq (by simp)
    · rw [if_neg hs] at hq
      have hq' : q = (pick_i64 bv 85 27 : Rat) / 600000 := by
        exact (Option.some.injEq _ _ ▸ hq.symm)
      subst hq'
      have h1 : ((-54000000 : Int) : Rat) ≤ (pick_i64 bv 85 27 : Rat) := by exact_mod_cast hlat1
      have h2 : (pick_i64 bv 85 27 : Rat) ≤ ((54000000 : Int) : Rat) := by exact_mod_cast hlat2
      norm_num at h1 h2
      constructor
      · rw [le_div_iff₀ (by norm_num : (0 : Rat) < 600000)]
        linarith
      · rw [div_le_iff₀ (by norm_num : (0 : Rat) < 600000)]
        linarith
  · intro hlon1 hlon2 q hq
    rw [hlon] at hq
    by_cases hs : pick_i64 bv 57 28 = 0x6791AC0
    · rw [if_pos hs] at hq
      exact absurd hq (by simp)
    · rw [if_neg hs] at hq
      have hq' : q = (pick_i64 bv 57 28 : Rat) / 600000 := by
        exact (Option.some.injEq _ _ ▸ hq.symm)
      subst hq'
      have h1 : ((-108000000 : Int) : Rat) ≤ (pick_i64 bv 57 28 : Rat) := by exact_mod_cast hlon1
      have h2 : (pick_i64 bv 57 28 : Rat) ≤ ((108000000 : Int) : Rat) := by exact_mod_cast hlon2
      norm_num at h1 h2
      constructor
      · rw [le_div_iff₀ (by norm_num : (0 : Rat) < 600000)]
        linarith
      · rw [div_le_iff₀ (by norm_num : (0 : Rat) < 600000)]
        linarith

/-- A 112-bit vector whose raw latitude field [85,112) holds exactly the
sentinel 0x3412140 = 54600000 and whose raw longitude field is zero. -/
def latSentinelBv : List Bool := List.replicate 85 false ++ natToBits 27 54600000

/-- Witness for the amended C4 theorem at a bit vector carrying the
latitude sentinel: the sentinel conjunct fires (latitude absent) and the
longitude band conjunct fires at raw longitude 0. -/
theorem t19_position_range_witness :
    ∃ d, ais_vdm_t19_handle latSentinelBv .Other false = .ok (.VesselDynamicData d) ∧
      d.latitude = none ∧
      (∀ q, d.longitude = some q → -180 ≤ q ∧ q ≤ 180) := by
  obtain ⟨d, hd, hsent, _, _, hlonRange⟩ := t19_position_range latSentinelBv .Other false
  exact ⟨d, hd, hsent (by decide), hlonRange (by decide) (by decide)⟩

/-- The type 19 handler always returns Ok with a VesselDynamicData
record (it is a single `Ok(...)` expression). -/
theorem t19_handle_ok (bv : List Bool) (s : Station) (o : Bool) :
    ∃ d, ais_vdm_t19_handle bv s o = .ok (.VesselDynamicData d) :=
  ⟨_, rfl⟩

/-- C6 counterexample: a one-fragment AIS sentence whose payload decodes
to message type 25 fails with UnrecognizedMessageType although 25 is
neither 0 nor greater than 27 — so "exactly when the type is 0 or
greater than 27" is false. -/
theorem dispatch_type25_unrecognized :
    decodeSentence (("!AIVDM,1,1,,A,I,0").data) [] =
        (.err (.unrecognizedMessageType 25), []) ∧
      ¬((25 : Nat) = 0 ∨ 27 < 25) := by
  constructor
  · decide
  · decide

/-- C6 amended: message types 4, 6-17 and 20-23 fail with
UnsupportedMessageType; the dispatch fails with UnrecognizedMessageType
exactly when the decoded type is 0 or at least 25 (so 0, 25, 26, 27, or
greater than 27); types 1, 2, 3, 5, 18 and 24 are handed to their
handlers and type 19 is decoded by the embedded handler. -/
theorem dispatch_message_types (bv : List Bool) (s : Station) (o : Bool) :
    (pick_u64 bv 0 6 = 4 ∨ (6 ≤ pick_u64 bv 0 6 ∧ pick_u64 bv 0 6 ≤ 17) ∨
        (20 ≤ pick_u64 bv 0 6 ∧ pick_u64 bv 0 6 ≤ 23) →
      dispatchAis bv s o = .err (.unsupportedMessageType (pick_u64 bv 0 6))) ∧
    (dispatchAis bv s o = .err (.unrecognizedMessageType (pick_u64 bv 0 6)) ↔
      (pick_u64 bv 0 6 = 0 ∨ 25 ≤ pick_u64 bv 0 6)) ∧
    (pick_u64 bv 0 6 = 1 ∨ pick_u64 bv 0 6 = 2 ∨ pick_u64 bv 0 6 = 3 ∨
        pick_u64 bv 0 6 = 5 ∨ pick_u64 bv 0 6 = 18 ∨ pick_u64 bv 0 6 = 24 →
      dispatchAis bv s o = .aisDispatch (pick_u64 bv 0 6) bv s o) ∧
    (pick_u64 bv 0 6 = 19 →
      ∃ d, dispatchAis bv s o = .ok (.VesselDynamicData d)) := by
  obtain ⟨d, hd⟩ := t19_handle_ok bv s o
  have hm : (match ais_vdm_t19_handle bv s o with
      | .ok m => Outcome.ok m
      | .error e => Outcome.err e) = .ok (.VesselDynamicData d) := by
    rw [hd]
  simp only [dispatchAis]
  rw [hm]
  refine ⟨?_, ?_, ?_, ?_⟩
  · intro h
    split_ifs with h1 h2 h3 h4 h5 h6 h7 h8 <;> first | rfl | omega
  · split_ifs with h1 h2 h3 h4 h5 h6 h7 h8
    · exact iff_of_false (by simp) (by omega)
    · exact iff_of_false (by simp) (by omega)
    · exact iff_of_false (by simp) (by omega)
    · exact iff_of_false (by simp) (by omega)
    · exact iff_of_false (by simp) (by omega)
    · exact iff_of_false (by simp) (by omega)
    · exact iff_of_false (by simp) (by omega)
    · exact iff_of_false (by simp) (by omega)
    · exact iff_of_true rfl (by omega)
  · intro h
    split_ifs with h1 h2 h3 h4 h5 h6 h7 h8 <;> first | rfl | omega
  · intro h
    split_ifs with h1 h2 h3 h4 h5 h6 h7 h8 <;> first | exact ⟨d, rfl⟩ | omega

/-- Witness for the amended C6 theorem: type 4 is unsupported. -/
theorem dispatch_message_types_witness :
    dispatchAis (natToBits 6 4) .Other false =
      .err (.unsupportedMessageType (pick_u64 (natToBits 6 4) 0 6)) :=
  (dispatch_message_types (natToBits 6 4) .Other false).1 (by decide)

theorem lookup_push_self (k : FragmentKey) (v : List Char) (st : NmeaStore) :
    lookupStore k (push_string k v st) = some v := by
  simp [push_string, lookupStore]

theorem aisReassemble_single (stype : List Char) (stn : Station) (own : Bool) (n : Nat)
    (mid : Option Nat) (ch payload : List Char) (store : NmeaStore) :
    aisReassemble stype stn own 1 n mid ch payload store =
      (decodeBvOpt (parse_payload payload) stn own, store) := by
  simp [aisReassemble]

theorem aisReassemble_frag1_hit (stype : List Char) (stn : Station) (own : Bool) (m : Nat)
    (ch payload p : List Char) (store : NmeaStore)
    (hp : lookupStore (make_fragment_key stype m 2 2 ch) store = some p) :
    aisReassemble stype stn own 2 1 (some m) ch payload store =
      (decodeBvOpt (parse_payload (payload ++ p)) stn own,
       storeErase (make_fragment_key stype m 2 2 ch) store) := by
  simp [aisReassemble, pull_string, hp]

theorem aisReassemble_frag1_miss (stype : List Char) (stn : Station) (own : Bool) (m : Nat)
    (ch payload : List Char) (store : NmeaStore)
    (hp : lookupStore (make_fragment_key stype m 2 2 ch) store = none) :
    aisReassemble stype stn own 2 1 (some m) ch payload store =
      (.ok .Incomplete, push_string (make_fragment_key stype m 2 1 ch) payload store) := by
  simp [aisReassemble, pull_string, hp]

theorem aisReassemble_frag2_hit (stype : List Char) (stn : Station) (own : Bool) (m : Nat)
    (ch payload p : List Char) (store : NmeaStore)
    (hp : lookupStore (make_fragment_key stype m 2 1 ch) store = some p) :
    aisReassemble stype stn own 2 2 (some m) ch payload store =
      (decodeBvOpt (parse_payload (p ++ payload)) stn own,
       storeErase (make_fragment_key stype m 2 1 ch) store) := by
  simp [aisReassemble, pull_string, hp]

theorem aisReassemble_frag2_miss (stype : List Char) (stn : Station) (own : Bool) (m : Nat)
    (ch payload : List Char) (store : NmeaStore)
    (hp : lookupStore (make_fragment_key stype m 2 1 ch) store = none) :
    aisReassemble stype stn own 2 2 (some m) ch payload store =
      (.ok .Incomplete, push_string (make_fragment_key stype m 2 2 ch) payload store) := by
  simp [aisReassemble, pull_string, hp]

/-- C2: the two-fragment reassembly policy (fragment count 2, message id
present).  Fragment 1 with a stored fragment 2: concatenate (fragment-1
payload first) and decode, consuming the stored entry; fragment 1 with
no stored fragment 2: park the payload under the index-1 key and report
Incomplete; symmetrically for fragment 2 (stored payload first). -/
theorem reassembly_policy (stype : List Char) (stn : Station) (own : Bool) (m : Nat)
    (ch payload : List Char) (store : NmeaStore) :
    (∀ p, lookupStore (make_fragment_key stype m 2 2 ch) store = some p →
      aisReassemble stype stn own 2 1 (some m) ch payload store =
        (decodeBvOpt (parse_payload (payload ++ p)) stn own,
         storeErase (make_fragment_key stype m 2 2 ch) store)) ∧
    (lookupStore (make_fragment_key stype m 2 2 ch) store = none →
      aisReassemble stype stn own 2 1 (some m) ch payload store =
        (.ok .Incomplete, push_string (make_fragment_key stype m 2 1 ch) payload store)) ∧
    (∀ p, lookupStore (make_fragment_key stype m 2 1 ch) store = some p →
      aisReassemble stype stn own 2 2 (some m) ch payload store =
        (decodeBvOpt (parse_payload (p ++ payload)) stn own,
         storeErase (make_fragment_key stype m 2 1 ch) store)) ∧
    (lookupStore (make_fragment_key stype m 2 1 ch) store = none →
      aisReassemble stype stn own 2 2 (some m) ch payload store =
        (.ok .Incomplete, push_string (make_fragment_key stype m 2 2 ch) payload store)) :=
  ⟨fun p hp => aisReassemble_frag1_hit stype stn own m ch payload p store hp,
   fun hp => aisReassemble_frag1_miss stype stn own m ch payload store hp,
   fun p hp => aisReassemble_frag2_hit stype stn own m ch payload p store hp,
   fun hp => aisReassemble_frag2_miss stype stn own m ch payload store hp⟩

/-- Witness for C2 at concrete inputs: a fragment 1 with an empty store
is parked under the index-1 key. -/
theorem reassembly_policy_witness :
    aisReassemble (("!VDM").data) .Other false 2 1 (some 7) (("A").data) (("55").data) [] =
      (.ok .Incomplete,
       push_string (make_fragment_key (("!VDM").data) 7 2 1 (("A").data)) (("55").data) []) :=
  (reassembly_policy (("!VDM").data) .Other false 7 (("A").data) (("55").data) []).2.1 rfl

/-- C7: feeding the two fragments of a transmission in either order
through the reassembly step with the same store yields the same decoded
outcome as a single one-fragment call carrying the concatenation of the
two payloads (fragment-1 payload first), provided the store holds
neither half already. -/
theorem twofragment_roundtrip (stype ch p1 p2 : List Char) (stn : Station) (own : Bool)
    (m : Nat) (store : NmeaStore)
    (h1 : lookupStore (make_fragment_key stype m 2 1 ch) store = none)
    (h2 : lookupStore (make_fragment_key stype m 2 2 ch) store = none) :
    (aisReassemble stype stn own 2 1 (some m) ch p1 store).1 = .ok .Incomplete ∧
    (aisReassemble stype stn own 2 2 (some m) ch p2
        (aisReassemble stype stn own 2 1 (some m) ch p1 store).2).1 =
      (aisReassemble stype stn own 1 1 (some m) ch (p1 ++ p2) store).1 ∧
    (aisReassemble stype stn own 2 2 (some m) ch p2 store).1 = .ok .Incomplete ∧
    (aisReassemble stype stn own 2 1 (some m) ch p1
        (aisReassemble stype stn own 2 2 (some m) ch p2 store).2).1 =
      (aisReassemble stype stn own 1 1 (some m) ch (p1 ++ p2) store).1 := by
  have s1 := aisReassemble_frag1_miss stype stn own m ch p1 store h2
  have s2 := aisReassemble_frag2_miss stype stn own m ch p2 store h1
  refine ⟨by rw [s1], ?_, by rw [s2], ?_⟩
  · rw [s1]
    have hk : lookupStore (make_fragment_key stype m 2 1 ch)
        (push_string (make_fragment_key stype m 2 1 ch) p1 store) = some p1 :=
      lookup_push_self _ _ _
    rw [aisReassemble_frag2_hit stype stn own m ch p2 p1 _ hk,
      aisReassemble_single stype stn own 1 (some m) ch (p1 ++ p2) store]
  · rw [s2]
    have hk : lookupStore (make_fragment_key stype m 2 2 ch)
        (push_string (make_fragment_key stype m 2 2 ch) p2 store) = some p2 :=
      lookup_push_self _ _ _
    rw [aisReassemble_frag1_hit stype stn own m ch p1 p2 _ hk,
      aisReassemble_single stype stn own 1 (some m) ch (p1 ++ p2) store]

/-- Witness for C7 at concrete inputs with the empty store. -/
theorem twofragment_roundtrip_witness :
    (aisReassemble (("!VDM").data) .Other false 2 1 (some 1) (("A").data) (("5").data) []).1 =
        .ok .Incomplete ∧
    (aisReassemble (("!VDM").data) .Other false 2 2 (some 1) (("A").data) (("6").data)
        (aisReassemble (("!VDM").data) .Other false 2 1 (some 1) (("A").data)
          (("5").data) []).2).1 =
      (aisReassemble (("!VDM").data) .Other false 1 1 (some 1) (("A").data)
        (("56").data) []).1 ∧
    (aisReassemble (("!VDM").data) .Other false 2 2 (some 1) (("A").data) (("6").data) []).1 =
        .ok .Incomplete ∧
    (aisReassemble (("!VDM").data) .Other false 2 1 (some 1) (("A").data) (("5").data)
        (aisReassemble (("!VDM").data) .Other false 2 2 (some 1) (("A").data)
          (("6").data) []).2).1 =
      (aisReassemble (("!VDM").data) .Other false 1 1 (some 1) (("A").data)
        (("56").data) []).1 := by
  have h := twofragment_roundtrip (("!VDM").data) (("A").data) (("5").data) (("6").data)
    .Other false 1 [] rfl rfl
  have happ : ("5").data ++ ("6").data = ("56").data := rfl
  rw [happ] at h
  exact h

/-- C10: with fragment count 2, a present message id, and a fragment
number other than 1 and 2, the reassembly step reports Incomplete and
leaves the store exactly as it was. -/
theorem badFragmentNumber_frame (stype : List Char) (stn : Station) (own : Bool) (m n : Nat)
    (ch payload : List Char) (store : NmeaStore) (hn1 : n ≠ 1) (hn2 : n ≠ 2) :
    aisReassemble stype stn own 2 n (some m) ch payload store = (.ok .Incomplete, store) := by
  simp [aisReassemble, hn1, hn2]

/-- Witness for C10 at fragment number 3. -/
theorem badFragmentNumber_frame_witness :
    aisReassemble (("!VDM").data) .Other false 2 3 (some 5) (("A").data) (("55").data)
        [(make_fragment_key (("!VDM").data) 5 2 1 (("A").data), ("Q").data)] =
      (.ok .Incomplete,
       [(make_fragment_key (("!VDM").data) 5 2 1 (("A").data), ("Q").data)]) :=
  badFragmentNumber_frame (("!VDM").data) .Other false 5 3 (("A").data) (("55").data)
    [(make_fragment_key (("!VDM").data) 5 2 1 (("A").data), ("Q").data)]
    (by omega) (by omega)

theorem dispatchAis_ne_mismatch (bv : List Bool) (s : Station) (o : Bool) :
    dispatchAis bv s o ≠ .err .checksumMismatch := by
  obtain ⟨d, hd⟩ := t19_handle_ok bv s o
  have hm : (match ais_vdm_t19_handle bv s o with
      | .ok m => Outcome.ok m
      | .error e => Outcome.err e) = .ok (.VesselDynamicData d) := by
    rw [hd]
  simp only [dispatchAis]
  rw [hm]
  split_ifs <;> simp

theorem decodeBvOpt_ne_mismatch (r : Except DecodeError (List Bool)) (s : Station) (o : Bool) :
    decodeBvOpt r s o ≠ .err .checksumMismatch := by
  cases r with
  | ok bv => exact dispatchAis_ne_mismatch bv s o
  | error e => simp [decodeBvOpt]

theorem aisReassemble_ne_mismatch (stype : List Char) (stn : Station) (own : Bool)
    (cnt n : Nat) (mid : Option Nat) (ch payload : List Char) (store : NmeaStore) :
    (aisReassemble stype stn own cnt n mid ch payload store).1 ≠ .err .checksumMismatch := by
  simp only [aisReassemble]
  repeat' split
  all_goals first
    | exact decodeBvOpt_ne_mismatch _ _ _
    | simp

theorem aisStage_ne_mismatch (own : Bool) (stype : List Char) (stn : Station)
    (body : List Char) (store : NmeaStore) :
    (aisStage own stype stn body store).1 ≠ .err .checksumMismatch := by
  simp only [aisStage, aisFields]
  repeat' split
  all_goals first
    | exact aisReassemble_ne_mismatch _ _ _ _ _ _ _ _ _
    | simp

theorem sentenceMatch_ne_mismatch (st2 : List Char) (nav : Option NavigationSystem)
    (stn : Option Station) (body : List Char) (store : NmeaStore) :
    (sentenceMatch st2 nav stn body store).1 ≠ .err .checksumMismatch := by
  simp only [sentenceMatch]
  split_ifs <;> first
    | exact aisStage_ne_mismatch _ _ _ _ _
    | simp

theorem headerStage_ne_mismatch (st0 body : List Char) (store : NmeaStore) :
    (headerStage st0 body store).1 ≠ .err .checksumMismatch := by
  simp only [headerStage]
  repeat' split
  all_goals first
    | exact sentenceMatch_ne_mismatch _ _ _ _ _
    | simp

theorem processBody_ne_mismatch (body : List Char) (store : NmeaStore) :
    (processBody body store).1 ≠ .err .checksumMismatch := by
  simp only [processBody]
  split
  · simp
  · exact headerStage_ne_mismatch _ _ _

/-- C3: decode_sentence splits the input at the last `'*'` into a body
and a checksum suffix (whole input and empty suffix when no `'*'`),
XORs the bytes of the body's characters after the first, and fails with
ChecksumMismatch exactly when the suffix is nonempty and differs
(case-sensitively) from the two uppercase hex digits of that XOR; when
the suffix is empty or matches, processing continues on the body with
the store untouched by this stage. -/
theorem checksum_gate (s : List Char) (st : NmeaStore) :
    ((decodeSentence s st).1 = .err .checksumMismatch ↔
      ((splitChecksum s).2 ≠ [] ∧
        (splitChecksum s).2 ≠ toHex2 (xorChecksum (splitChecksum s).1))) ∧
    ((splitChecksum s).2 = [] ∨
        (splitChecksum s).2 = toHex2 (xorChecksum (splitChecksum s).1) →
      decodeSentence s st = processBody (splitChecksum s).1 st) := by
  simp only [decodeSentence]
  constructor
  · by_cases hc : (splitChecksum s).2 ≠ [] ∧
        (splitChecksum s).2 ≠ toHex2 (xorChecksum (splitChecksum s).1)
    · rw [if_pos hc]
      exact iff_of_true rfl hc
    · rw [if_neg hc]
      exact iff_of_false (processBody_ne_mismatch _ _) hc
  · intro h
    rw [if_neg (by tauto)]

/-- Witness for C3 at a concrete sentence whose suffix matches
(`'X'` has byte 0x58). -/
theorem checksum_gate_witness :
    decodeSentence (("$X*58").data) [] =
      processBody ((splitChecksum (("$X*58").data)).1) [] :=
  (checksum_gate (("$X*58").data) []).2 (Or.inr (by decide))

/-- C5: contrary to the never-panic claim, the header analysis of
decode_sentence panics on malformed headers: a `$`-headed sentence type
of four characters reaches the slice `&sentence_type[3..6]` and an empty
sentence type reaches `&sentence_type[0..1]`, both out of bounds.  The
embedding evaluates both failing inputs to the panic outcome. -/
theorem header_slice_out_of_bounds :
    decodeSentence (("$GPX,1").data) [] = (.panicked, []) ∧
    decodeSentence ((",x").data) [] = (.panicked, []) := by
  constructor
  · decide
  · decide

/-- Witness for C1 at the empty bit vector. -/
theorem t19_field_decoding_witness :
    ∃ d, ais_vdm_t19_handle [] .Other false = .ok (.VesselDynamicData d) ∧
      d.mmsi = pick_u64 [] 8 30 ∧
      d.sog_knots =
        (if pick_u64 [] 46 10 = 1023 then none else some ((pick_u64 [] 46 10 : Rat) / 10)) ∧
      d.longitude =
        (if pick_i64 [] 57 28 = 0x6791AC0 then none
         else some ((pick_i64 [] 57 28 : Rat) / 600000)) ∧
      d.latitude =
        (if pick_i64 [] 85 27 = 0x3412140 then none
         else some ((pick_i64 [] 85 27 : Rat) / 600000)) ∧
      d.cog =
        (if pick_u64 [] 112 12 = 0xE10 then none
         else some ((pick_u64 [] 112 12 : Rat) / 10)) ∧
      d.heading_true =
        (if pick_u64 [] 124 9 = 511 then none else some ((pick_u64 [] 124 9 : Rat))) ∧
      d.timestamp_seconds = pick_u64 [] 133 6 ∧
      (d.raim_flag = true ↔ pick_u64 [] 305 1 = 1) :=
  t19_field_decoding [] .Other false

/-- Witness for C9 at the empty bit vector. -/
theorem t19_total_witness :
    (∃ d, ais_vdm_t19_handle [] .Other false = .ok (.VesselDynamicData d)) ∧
      (∀ off w, ([] : List Bool).length < off + w → pick_u64 [] off w = 0) :=
  t19_total [] .Other false

end NmeaParser
